import Mathlib

/-!
Shallow embedding of the Tracker video effect (`src/src/effects/Tracker.cpp`,
class `openshot::Tracker`) and verification of its specification.

Floats are modelled as rationals; the C `(int)` cast is truncation toward
zero.  The tracked-data store (`KeyframeBBox`) and the animated-parameter
curves (`Keyframe`) are classes of this repository whose sources are not
available here (only their caller `Tracker.cpp` is); their operations are
modelled from the spec, as marked on each definition.
-/

namespace TrackerSpec

/-- A bounding box sample in fractional frame coordinates, with the fields the
code reads in `Tracker::GetFrame` (`fd.cx`, `fd.cy`, `fd.width`, `fd.height`). -/
structure BBox where
  cx : ℚ
  cy : ℚ
  width : ℚ
  height : ℚ
  deriving Repr, DecidableEq

/-- Modelled from the spec: the `KeyframeBBox` class (the `trackedData` member)
is not under `src/`.  Per spec §3, §4.2 and §9 it is a sparse ordered mapping
from frame index to `BBox` (keys kept strictly ascending, deterministic
ascending iteration) plus base frame-rate metadata. -/
structure KeyframeBBox where
  boxes : List (Int × BBox)
  baseFpsNum : Int
  baseFpsDen : Int
  deriving Repr, DecidableEq

/-- Ordered-map insert/overwrite at a key, keeping keys strictly ascending
(spec §9 calls for an ordered map with deterministic iteration order). -/
def insertBoxes : List (Int × BBox) → Int → BBox → List (Int × BBox)
  | [], k, b => [(k, b)]
  | (k0, b0) :: rest, k, b =>
    if k < k0 then (k, b) :: (k0, b0) :: rest
    else if k = k0 then (k, b) :: rest
    else (k0, b0) :: insertBoxes rest k b

/-- Exact-key membership in the underlying key/sample list. -/
def containsKey (l : List (Int × BBox)) (k : Int) : Bool :=
  l.any (fun p => p.1 == k)

/-- Modelled from the spec: `KeyframeBBox::Contains` — exact-key membership
only, no nearest-neighbour semantics (spec §4.2). -/
def KeyframeBBox.Contains (td : KeyframeBBox) (k : Int) : Bool :=
  containsKey td.boxes k

/-- Modelled from the spec: `KeyframeBBox::GetValue` — defined only when
the key is present; failing loudly on an absent key (spec §4.2, §7) is
modelled as returning `none`. -/
def KeyframeBBox.GetValue (td : KeyframeBBox) (k : Int) : Option BBox :=
  (td.boxes.find? (fun p => p.1 == k)).map (fun p => p.2)

/-- Modelled from the spec: `KeyframeBBox::AddBox(id, cx, cy, width, height)` —
stores/overwrites the sample at the frame id (spec §4.2).  The non-negativity
gate of spec §4.2 "matches defensive loader behavior": it is the loader's
visible raw-corner check in `Tracker.cpp` line 148, applied by the caller. -/
def KeyframeBBox.AddBox (td : KeyframeBBox) (k : Int) (cx cy w h : ℚ) :
    KeyframeBBox :=
  { td with boxes := insertBoxes td.boxes k ⟨cx, cy, w, h⟩ }

/-- Modelled from the spec: `KeyframeBBox::clear` — removes all samples
(spec §4.2); the base-rate metadata is not a sample. -/
def KeyframeBBox.clear (td : KeyframeBBox) : KeyframeBBox :=
  { td with boxes := [] }

/-- Modelled from the spec: `KeyframeBBox::SetBaseFPS` — records the nominal
sampling rate; pure metadata, does not itself rescale (spec §4.2). -/
def KeyframeBBox.SetBaseFPS (td : KeyframeBBox) (n d : Int) : KeyframeBBox :=
  { td with baseFpsNum := n, baseFpsDen := d }

/-- Rounding to the nearest integer frame (ties upward), used by the key
rescaling of spec §4.2. -/
def rnd (q : ℚ) : Int := ⌊q + 1 / 2⌋

/-- Modelled from the spec: `KeyframeBBox::ScalePoints(factor)` — multiplies
every stored key by `factor`, rounding to nearest; when two keys collide the
entry of larger original key wins (ascending iteration + overwrite, spec §3). -/
def KeyframeBBox.ScalePoints (td : KeyframeBBox) (factor : ℚ) : KeyframeBBox :=
  { td with boxes :=
      td.boxes.foldl (fun acc p => insertBoxes acc (rnd ((p.1 : ℚ) * factor)) p.2) [] }

/-- One record of the persisted protobuf track file as `Tracker::LoadTrackedData`
reads it: frame id, rotation, and a rectangle as two opposite corners. -/
structure PBFrame where
  id : Int
  rotation : ℚ
  x1 : ℚ
  y1 : ℚ
  x2 : ℚ
  y2 : ℚ
  deriving Repr, DecidableEq

/-- The loader's acceptance test on the raw corners
(`Tracker.cpp` line 148: all four corner coordinates non-negative). -/
def passes (f : PBFrame) : Bool :=
  decide (0 ≤ f.x1 ∧ 0 ≤ f.y1 ∧ 0 ≤ f.x2 ∧ 0 ≤ f.y2)

/-- The loader's fill loop (`Tracker.cpp` lines 132-152): starting from the
cleared store, one `AddBox` per accepted record in file order, converting the
two corners to an anchor plus width/height `(x1, y1, x2-x1, y2-y1)`. -/
def loadBoxes (frames : List PBFrame) : List (Int × BBox) :=
  frames.foldl
    (fun acc f =>
      if passes f then insertBoxes acc f.id ⟨f.x1, f.y1, f.x2 - f.x1, f.y2 - f.y1⟩
      else acc)
    []

/-- `Tracker::LoadTrackedData` (lines 113-163).  The protobuf parse result is
passed in as `parsed` (`none` models a parse failure; file I/O and the
protobuf library are outside the model).  On failure it returns `false` with
the store untouched; on success it clears the store, refills it in file order
and returns `true`.  No exception is thrown: the model is a total function. -/
def LoadTrackedData (parsed : Option (List PBFrame)) (td : KeyframeBBox) :
    Bool × KeyframeBBox :=
  match parsed with
  | none => (false, td)
  | some frames => (true, { td with boxes := loadBoxes frames })

/-- The ids of the records the loader accepts (all corners non-negative), in
file order. -/
def acceptedIds (frames : List PBFrame) : List Int :=
  (frames.filter passes).map (fun f => f.id)

/-- Modelled from the spec: the `Keyframe` curve class is not under `src/`.
An ordered list of control points `(frame, value)` (spec §3, §4.1). -/
structure Keyframe where
  points : List (Int × ℚ)
  deriving Repr, DecidableEq

/-- Modelled from the spec: `Keyframe::GetValue` (spec §4.1) — 0 with no
points; clamped to the first/last value outside the covered range; exact at a
control point; linear interpolation strictly between two neighbours. -/
def valueAt : List (Int × ℚ) → Int → ℚ
  | [], _ => 0
  | (f0, v0) :: rest, n =>
    if n ≤ f0 then v0
    else
      match rest with
      | [] => v0
      | (f1, v1) :: _ =>
        if n < f1 then v0 + (v1 - v0) * (((n : ℚ) - (f0 : ℚ)) / ((f1 : ℚ) - (f0 : ℚ)))
        else valueAt rest n

/-- Curve lookup at a frame. -/
def Keyframe.GetValue (kf : Keyframe) (n : Int) : ℚ :=
  valueAt kf.points n

/-- Modelled from the spec: `Keyframe::SetJsonValue` — replaces the curve's
control points with those of its configuration sub-document (spec §3, §6). -/
def Keyframe.SetJsonValue (_kf : Keyframe) (pts : List (Int × ℚ)) : Keyframe :=
  ⟨pts⟩

/-- A frame-rate fraction, as in `Tracker`'s `BaseFPS` member. -/
structure Fraction where
  num : Int
  den : Int
  deriving Repr, DecidableEq

/-- The parsed configuration document for `Tracker::SetJsonValue`.  One
optional field per key the code reads; `none` models `root[key].isNull()`.
Keys the code never reads (unrecognized keys) do not reach the model, and the
parent `EffectBase` keys touch only parent fields, outside the model. -/
structure ConfigRoot where
  baseFPS : Option (Option Int × Option Int)
  timeScale : Option ℚ
  protobuf_data_path : Option String
  delta_x : Option (List (Int × ℚ))
  delta_y : Option (List (Int × ℚ))
  scale_x : Option (List (Int × ℚ))
  scale_y : Option (List (Int × ℚ))
  rotation : Option (List (Int × ℚ))

/-- A configuration document with none of the recognized keys present. -/
def emptyRoot : ConfigRoot :=
  ⟨none, none, none, none, none, none, none, none⟩

/-- The Tracker effect's own state: the members of `openshot::Tracker` that
`Tracker.cpp` reads and writes (`EffectBase` parent fields are out of scope). -/
structure Tracker where
  trackedData : KeyframeBBox
  BaseFPS : Fraction
  TimeScale : ℚ
  protobuf_data_path : String
  delta_x : Keyframe
  delta_y : Keyframe
  scale_x : Keyframe
  scale_y : Keyframe
  rotation : Keyframe
  deriving Repr, DecidableEq

/-- `Tracker::SetJsonValue` (lines 216-257).  `fs` supplies, for each path,
the protobuf parse result of the track file at that path (`none` = parse
failure).  The code's order is kept: `SetBaseFPS` and `ScalePoints` run
unconditionally BEFORE the optional reload from `protobuf_data_path`. -/
def SetJsonValue (fs : String → Option (List PBFrame)) (root : ConfigRoot)
    (st : Tracker) : Tracker :=
  -- lines 221-226: BaseFPS num/den updated only when present
  let bf : Fraction :=
    match root.baseFPS with
    | none => st.BaseFPS
    | some (nn, dd) => ⟨nn.getD st.BaseFPS.num, dd.getD st.BaseFPS.den⟩
  -- lines 228-230: TimeScale updated only when present
  let ts : ℚ := root.timeScale.getD st.TimeScale
  -- lines 232-233: unconditional SetBaseFPS then ScalePoints
  let td := (st.trackedData.SetBaseFPS bf.num bf.den).ScalePoints ts
  -- lines 236-243: optional reload; on failure the path is reset to ""
  let pathTd : String × KeyframeBBox :=
    match root.protobuf_data_path with
    | none => (st.protobuf_data_path, td)
    | some p =>
      let r := LoadTrackedData (fs p) td
      if r.1 then (p, r.2) else ("", r.2)
  -- lines 245-254: each curve replaced only when its key is present
  { trackedData := pathTd.2
    BaseFPS := bf
    TimeScale := ts
    protobuf_data_path := pathTd.1
    delta_x := match root.delta_x with
               | none => st.delta_x
               | some pts => st.delta_x.SetJsonValue pts
    delta_y := match root.delta_y with
               | none => st.delta_y
               | some pts => st.delta_y.SetJsonValue pts
    scale_x := match root.scale_x with
               | none => st.scale_x
               | some pts => st.scale_x.SetJsonValue pts
    scale_y := match root.scale_y with
               | none => st.scale_y
               | some pts => st.scale_y.SetJsonValue pts
    rotation := match root.rotation with
                | none => st.rotation
                | some pts => st.rotation.SetJsonValue pts }

/-- `Tracker::SetJson` (lines 199-213).  `parsed` is the result of
`openshot::stringToJson` plus structural validation (code of this repository
not under `src/`, modelled from the spec: a malformed document fails to
parse): on `none` the code throws `InvalidJSON`, modelled as `Except.error`;
otherwise it delegates to `SetJsonValue` and does not throw. -/
def SetJson (fs : String → Option (List PBFrame)) (parsed : Option ConfigRoot)
    (st : Tracker) : Except String Tracker :=
  match parsed with
  | none => Except.error "JSON is invalid (missing keys or invalid data types)"
  | some root => Except.ok (SetJsonValue fs root st)

/-- A pixel-coordinate rectangle as built for `cv::rectangle`
(the four `(int)` casts in `Tracker.cpp` lines 97-100). -/
structure PixelRect where
  x : Int
  y : Int
  w : Int
  h : Int
  deriving Repr, DecidableEq

/-- The frame image as `Tracker::GetFrame` observes it: pixel dimensions,
emptiness, and the rectangles drawn onto it (other pixel content is opaque
to this component and carried unchanged). -/
structure CVImage where
  width : Int
  height : Int
  isEmpty : Bool
  rects : List PixelRect
  deriving Repr, DecidableEq

/-- The C/C++ `(int)` cast of a float value: truncation toward zero. -/
def truncInt (q : ℚ) : Int :=
  q.num.tdiv (q.den : Int)

/-- `Tracker::GetFrame` (lines 71-110): if the image is non-empty and the
store contains the frame number, draw one rectangle computed from the stored
sample, the four curve values at that frame, and the image's pixel
dimensions; otherwise the image is returned as it came.  The `none` branch of
the lookup is unreachable after a positive `Contains` test. -/
def GetFrame (st : Tracker) (img : CVImage) (n : Int) : CVImage :=
  if img.isEmpty then img
  else if st.trackedData.Contains n then
    match st.trackedData.GetValue n with
    | none => img
    | some fd =>
      let fw : ℚ := (img.width : ℚ)
      let fh : ℚ := (img.height : ℚ)
      let sx := st.scale_x.GetValue n
      let sy := st.scale_y.GetValue n
      let dx := st.delta_x.GetValue n
      let dy := st.delta_y.GetValue n
      { img with rects := img.rects ++
          [⟨truncInt ((fd.cx + dx) * fw), truncInt ((fd.cy + dy) * fh),
            truncInt ((fd.width + sx) * fw), truncInt ((fd.height + sy) * fh)⟩] }
  else img

/-- `Tracker::GetTrackedData` (lines 166-168): delegates to the store's
lookup. -/
def GetTrackedData (st : Tracker) (k : Int) : Option BBox :=
  st.trackedData.GetValue k

/-- Strictly ascending keys: the ordered-map invariant of the store's
underlying list (spec §9). -/
def SortedKeys (l : List (Int × BBox)) : Prop :=
  List.Pairwise (fun p q => p.1 < q.1) l

lemma containsKey_iff_mem (l : List (Int × BBox)) (j : Int) :
    containsKey l j = true ↔ j ∈ l.map Prod.fst := by
  simp [containsKey, List.any_eq_true, List.mem_map, beq_iff_eq]

lemma mem_keys_insertBoxes (l : List (Int × BBox)) (k j : Int) (b : BBox) :
    j ∈ (insertBoxes l k b).map Prod.fst ↔ (j = k ∨ j ∈ l.map Prod.fst) := by
  induction l with
  | nil => simp [insertBoxes]
  | cons hd tl ih =>
    obtain ⟨k0, b0⟩ := hd
    simp only [insertBoxes]
    split
    · simp
    · split
      · next h2 =>
        subst h2
        simp
      · simp only [List.map_cons, List.mem_cons] at ih ⊢
        tauto

lemma mem_keys_loadFold (frames : List PBFrame) (acc : List (Int × BBox)) (j : Int) :
    j ∈ ((frames.foldl
        (fun a f =>
          if passes f then insertBoxes a f.id ⟨f.x1, f.y1, f.x2 - f.x1, f.y2 - f.y1⟩
          else a)
        acc).map Prod.fst)
      ↔ (j ∈ acceptedIds frames ∨ j ∈ acc.map Prod.fst) := by
  induction frames generalizing acc with
  | nil => simp [acceptedIds]
  | cons f tl ih =>
    simp only [List.foldl_cons]
    by_cases hp : passes f
    · rw [if_pos hp, ih, mem_keys_insertBoxes]
      simp only [acceptedIds, List.filter_cons, hp, if_true, List.map_cons,
        List.mem_cons]
      tauto
    · rw [if_neg hp, ih]
      simp only [acceptedIds, List.filter_cons]
      rw [if_neg hp]

lemma containsKey_loadBoxes (frames : List PBFrame) (j : Int) :
    containsKey (loadBoxes frames) j = true ↔ j ∈ acceptedIds frames := by
  rw [containsKey_iff_mem, loadBoxes, mem_keys_loadFold]
  simp

/-- C7: for every load whose track file parses successfully, the store is
first fully cleared and then repopulated by one `AddBox` per accepted record
in file order (`loadBoxes` is exactly that fold from the cleared store), so
after the load the store's samples are exactly the accepted records of the
file — independent of anything stored before the load. -/
theorem C7_clear_then_fill (frames : List PBFrame) (td : KeyframeBBox) (k : Int) :
    LoadTrackedData (some frames) td = (true, { td with boxes := loadBoxes frames })
    ∧ (containsKey (loadBoxes frames) k = true ↔ k ∈ acceptedIds frames) := by
  exact ⟨rfl, containsKey_loadBoxes frames k⟩

/-- C6: during a load, a record with a negative corner coordinate fails the
acceptance test and is silently dropped — when no record with its id is
accepted, the id is absent from the store afterward — while the load as a
whole still reports success. -/
theorem C6_negative_corner_dropped (frames : List PBFrame) (td : KeyframeBBox)
    (r : PBFrame) (hr : r ∈ frames)
    (hneg : r.x1 < 0 ∨ r.y1 < 0 ∨ r.x2 < 0 ∨ r.y2 < 0)
    (hid : ∀ f ∈ frames, f.id = r.id → passes f = false) :
    (LoadTrackedData (some frames) td).1 = true
    ∧ passes r = false
    ∧ containsKey (LoadTrackedData (some frames) td).2.boxes r.id = false := by
  have hpass : passes r = false := by
    have hx : ¬(0 ≤ r.x1 ∧ 0 ≤ r.y1 ∧ 0 ≤ r.x2 ∧ 0 ≤ r.y2) := by
      rcases hneg with h | h | h | h <;> intro hc <;>
        [exact absurd hc.1 (not_le.mpr h);
         exact absurd hc.2.1 (not_le.mpr h);
         exact absurd hc.2.2.1 (not_le.mpr h);
         exact absurd hc.2.2.2 (not_le.mpr h)]
    simp [passes, hx]
  refine ⟨rfl, hpass, ?_⟩
  have hnotin : r.id ∉ acceptedIds frames := by
    intro hmem
    simp only [acceptedIds, List.mem_map, List.mem_filter] at hmem
    obtain ⟨f, ⟨hf, hpf⟩, hfid⟩ := hmem
    rw [hid f hf hfid] at hpf
    exact Bool.false_ne_true hpf
  have hbx : (LoadTrackedData (some frames) td).2.boxes = loadBoxes frames := rfl
  rw [hbx]
  cases hck : containsKey (loadBoxes frames) r.id
  · rfl
  · exact absurd ((containsKey_loadBoxes frames r.id).mp hck) hnotin

/-- C6 witness: a file with a single record at frame 5 whose `x1` corner is
negative loads successfully yet leaves `contains(5)` false. -/
def framesC6 : List PBFrame := [⟨5, 0, -1, 0, 1, 1⟩]

/-- An empty store with nominal 30/1 base rate, used as a load target. -/
def tdC6 : KeyframeBBox := ⟨[], 30, 1⟩

theorem C6_negative_corner_dropped_witness :
    (LoadTrackedData (some framesC6) tdC6).1 = true
    ∧ passes ⟨5, 0, -1, 0, 1, 1⟩ = false
    ∧ containsKey (LoadTrackedData (some framesC6) tdC6).2.boxes (5 : Int) = false :=
  C6_negative_corner_dropped framesC6 tdC6 ⟨5, 0, -1, 0, 1, 1⟩
    (by simp [framesC6])
    (Or.inl (by norm_num))
    (by intro f hf hfid; simp [framesC6] at hf; subst hf; simp [passes])

/-- C8: fetching the tracked sample of an absent frame id fails (modelled as
`none`, never a zero/default sample): the lookup yields a sample exactly on
the keys the store contains. -/
theorem C8_get_absent (st : Tracker) (k : Int) :
    GetTrackedData st k = none ↔ st.trackedData.Contains k = false := by
  simp only [GetTrackedData, KeyframeBBox.GetValue, KeyframeBBox.Contains,
    containsKey, Option.map_eq_none', List.find?_eq_none, List.any_eq_true,
    beq_iff_eq]
  constructor
  · intro h
    cases hck : (st.trackedData.boxes.any fun p => p.1 == k)
    · rfl
    · obtain ⟨p, hp, hpk⟩ := List.any_eq_true.mp hck
      exact absurd (beq_iff_eq.mp hpk) (h p hp)
  · intro h p hp hpk
    have : (st.trackedData.boxes.any fun q => q.1 == k) = true :=
      List.any_eq_true.mpr ⟨p, hp, beq_iff_eq.mpr hpk⟩
    rw [h] at this
    exact Bool.false_ne_true this

/-- C9: a malformed configuration document (failed parse/validation) makes
the configuration-setting operation raise `InvalidJSON` to its caller, and a
well-formed document is applied without raising. -/
theorem C9_setjson_validation (fs : String → Option (List PBFrame))
    (st : Tracker) (root : ConfigRoot) :
    SetJson fs none st =
      Except.error "JSON is invalid (missing keys or invalid data types)"
    ∧ SetJson fs (some root) st = Except.ok (SetJsonValue fs root st) := by
  exact ⟨rfl, rfl⟩

/-- C4: for a requested frame number with no exact-key entry in the store,
`GetFrame` signals "no region": the image is returned unchanged (no rectangle
drawn, no curve-derived offsets applied). -/
theorem C4_no_region (st : Tracker) (img : CVImage) (n : Int)
    (h : st.trackedData.Contains n = false) :
    GetFrame st img n = img := by
  unfold GetFrame
  rw [h]
  simp

/-- An effect state with a sample only at frame 10, all curves empty. -/
def stC4 : Tracker :=
  { trackedData := ⟨[(10, ⟨1/4, 1/4, 1/8, 1/8⟩)], 30, 1⟩
    BaseFPS := ⟨30, 1⟩
    TimeScale := 1
    protobuf_data_path := "track.data"
    delta_x := ⟨[]⟩
    delta_y := ⟨[]⟩
    scale_x := ⟨[]⟩
    scale_y := ⟨[]⟩
    rotation := ⟨[]⟩ }

/-- A non-empty 100x50 image with nothing drawn on it yet. -/
def imgC4 : CVImage := ⟨100, 50, false, []⟩

theorem C4_no_region_witness : GetFrame stC4 imgC4 15 = imgC4 :=
  C4_no_region stC4 imgC4 15 (by simp [stC4, KeyframeBBox.Contains, containsKey])

/-- C5 counterexample: the component itself multiplies by the image's pixel
width/height (and truncates): with the sample `(1/5, 1/5, 1/10, 1/10)` at
frame 1, zero curves and a 100x50 image, the emitted rectangle is the pixel
rectangle `(20, 10, 10, 5)`, whose horizontal anchor 20 differs from the
fractional `s.cx + dx = 1/5 + 0` the claim prescribes. -/
def stC5 : Tracker :=
  { trackedData := ⟨[(1, ⟨1/5, 1/5, 1/10, 1/10⟩)], 30, 1⟩
    BaseFPS := ⟨30, 1⟩
    TimeScale := 1
    protobuf_data_path := "track.data"
    delta_x := ⟨[]⟩
    delta_y := ⟨[]⟩
    scale_x := ⟨[]⟩
    scale_y := ⟨[]⟩
    rotation := ⟨[]⟩ }

/-- A non-empty 100x50 image with nothing drawn on it yet. -/
def imgC5 : CVImage := ⟨100, 50, false, []⟩

theorem C5_fractional_cex :
    (GetFrame stC5 imgC5 1).rects = [⟨20, 10, 10, 5⟩]
    ∧ stC5.delta_x.GetValue 1 = 0
    ∧ (stC5.trackedData.GetValue 1).map (fun fd => fd.cx) = some (1/5)
    ∧ ((20 : ℚ) ≠ 1/5 + 0) := by
  refine ⟨?_, rfl, rfl, by norm_num⟩
  have hc : stC5.trackedData.Contains 1 = true := by
    simp [stC5, KeyframeBBox.Contains, containsKey]
  have hg : stC5.trackedData.GetValue 1 = some ⟨1/5, 1/5, 1/10, 1/10⟩ := rfl
  simp only [GetFrame, stC5, imgC5, hc]
  norm_num [KeyframeBBox.GetValue, containsKey, KeyframeBBox.Contains,
    Keyframe.GetValue, valueAt, truncInt]

/-- C5 amended: for every frame with a stored sample, the component emits the
PIXEL rectangle obtained by adding the curve values in fractional coordinates
and then multiplying by the image's pixel width/height with truncation to
int — the pixel conversion happens inside this component. -/
theorem C5_pixel_rect (st : Tracker) (img : CVImage) (n : Int) (fd : BBox)
    (hne : img.isEmpty = false)
    (hc : st.trackedData.Contains n = true)
    (hg : st.trackedData.GetValue n = some fd) :
    (GetFrame st img n).rects = img.rects ++
      [⟨truncInt ((fd.cx + st.delta_x.GetValue n) * (img.width : ℚ)),
        truncInt ((fd.cy + st.delta_y.GetValue n) * (img.height : ℚ)),
        truncInt ((fd.width + st.scale_x.GetValue n) * (img.width : ℚ)),
        truncInt ((fd.height + st.scale_y.GetValue n) * (img.height : ℚ))⟩] := by
  simp [GetFrame, hne, hc, hg]

theorem C5_pixel_rect_witness :
    (GetFrame stC5 imgC5 1).rects = imgC5.rects ++
      [⟨truncInt (((1 : ℚ)/5 + stC5.delta_x.GetValue 1) * ((imgC5.width : ℚ))),
        truncInt (((1 : ℚ)/5 + stC5.delta_y.GetValue 1) * ((imgC5.height : ℚ))),
        truncInt (((1 : ℚ)/10 + stC5.scale_x.GetValue 1) * ((imgC5.width : ℚ))),
        truncInt (((1 : ℚ)/10 + stC5.scale_y.GetValue 1) * ((imgC5.height : ℚ)))⟩] :=
  C5_pixel_rect stC5 imgC5 1 ⟨1/5, 1/5, 1/10, 1/10⟩ rfl
    (by simp [stC5, KeyframeBBox.Contains, containsKey]) rfl

/-- C10: a record whose four corners are all non-negative but reversed
(`x2 < x1` or `y2 < y1`) passes the loader's raw-corner filter and is stored,
with width `x2 - x1` and height `y2 - y1`, hence a negative width and/or
height: the filter applies to the raw corners before the corner-to-size
conversion. -/
theorem C10_reversed_corners (r : PBFrame) (td : KeyframeBBox)
    (h1 : 0 ≤ r.x1) (h2 : 0 ≤ r.y1) (h3 : 0 ≤ r.x2) (h4 : 0 ≤ r.y2)
    (hrev : r.x2 < r.x1 ∨ r.y2 < r.y1) :
    passes r = true
    ∧ LoadTrackedData (some [r]) td =
        (true, { td with boxes := [(r.id, ⟨r.x1, r.y1, r.x2 - r.x1, r.y2 - r.y1⟩)] })
    ∧ (r.x2 - r.x1 < 0 ∨ r.y2 - r.y1 < 0) := by
  have hp : passes r = true := by
    simp only [passes, decide_eq_true_eq]
    exact ⟨h1, h2, h3, h4⟩
  refine ⟨hp, ?_, ?_⟩
  · simp [LoadTrackedData, loadBoxes, hp, insertBoxes]
  · rcases hrev with h | h
    · exact Or.inl (by linarith)
    · exact Or.inr (by linarith)

/-- A record with all corners non-negative but `x2 < x1`. -/
def rC10 : PBFrame := ⟨7, 0, 1/2, 1/2, 1/4, 3/4⟩

/-- An empty store with nominal 30/1 base rate, used as a load target. -/
def tdC10 : KeyframeBBox := ⟨[], 30, 1⟩

theorem C10_reversed_corners_witness :
    passes rC10 = true
    ∧ LoadTrackedData (some [rC10]) tdC10 =
        (true, { tdC10 with
          boxes := [(rC10.id, ⟨rC10.x1, rC10.y1, rC10.x2 - rC10.x1, rC10.y2 - rC10.y1⟩)] })
    ∧ (rC10.x2 - rC10.x1 < 0 ∨ rC10.y2 - rC10.y1 < 0) :=
  C10_reversed_corners rC10 tdC10 (by norm_num [rC10]) (by norm_num [rC10])
    (by norm_num [rC10]) (by norm_num [rC10]) (Or.inl (by norm_num [rC10]))

/-- C3: a load whose track file fails to parse leaves the store exactly as it
was (no clear, no partial fill) and reports failure as a boolean (the model's
totality is the absence of exceptions); the configuration caller then resets
the stored path to empty. -/
theorem C3_parse_failure (fs : String → Option (List PBFrame))
    (root : ConfigRoot) (st : Tracker) (p : String)
    (hp : root.protobuf_data_path = some p) (hf : fs p = none) :
    LoadTrackedData (fs p) st.trackedData = (false, st.trackedData)
    ∧ (SetJsonValue fs root st).protobuf_data_path = "" := by
  constructor
  · rw [hf]
    rfl
  · simp only [SetJsonValue, hp, hf, LoadTrackedData]
    rfl

/-- A parse environment in which every path fails to parse. -/
def fsFail : String → Option (List PBFrame) := fun _ => none

/-- A configuration document that only sets the track path. -/
def rootC3 : ConfigRoot :=
  { baseFPS := none, timeScale := none, protobuf_data_path := some "missing.data",
    delta_x := none, delta_y := none, scale_x := none, scale_y := none,
    rotation := none }

/-- An effect state carrying one prior sample at frame 2. -/
def stC3 : Tracker :=
  { trackedData := ⟨[(2, ⟨1/3, 1/3, 1/6, 1/6⟩)], 30, 1⟩
    BaseFPS := ⟨30, 1⟩
    TimeScale := 1
    protobuf_data_path := "old.data"
    delta_x := ⟨[]⟩
    delta_y := ⟨[]⟩
    scale_x := ⟨[]⟩
    scale_y := ⟨[]⟩
    rotation := ⟨[]⟩ }

theorem C3_parse_failure_witness :
    LoadTrackedData (fsFail "missing.data") stC3.trackedData = (false, stC3.trackedData)
    ∧ (SetJsonValue fsFail rootC3 stC3).protobuf_data_path = "" :=
  C3_parse_failure fsFail rootC3 stC3 "missing.data" rfl rfl

lemma insertBoxes_append (acc : List (Int × BBox)) (k : Int) (b : BBox)
    (h : ∀ p ∈ acc, p.1 < k) : insertBoxes acc k b = acc ++ [(k, b)] := by
  induction acc with
  | nil => rfl
  | cons hd tl ih =>
    obtain ⟨k0, b0⟩ := hd
    have hk0 : k0 < k := h (k0, b0) (by simp)
    simp only [insertBoxes]
    rw [if_neg (by omega), if_neg (by omega), ih (fun p hp => h p (by simp [hp]))]
    rfl

lemma foldl_insert_sorted (l : List (Int × BBox)) (acc : List (Int × BBox))
    (hacc : ∀ p ∈ l, ∀ q ∈ acc, q.1 < p.1) (hl : SortedKeys l) :
    l.foldl (fun a p => insertBoxes a p.1 p.2) acc = acc ++ l := by
  induction l generalizing acc with
  | nil => simp
  | cons hd tl ih =>
    simp only [List.foldl_cons]
    rw [insertBoxes_append acc hd.1 hd.2 (fun q hq => hacc hd (by simp) q hq)]
    rw [SortedKeys, List.pairwise_cons] at hl
    rw [ih (acc ++ [(hd.1, hd.2)])]
    · simp
    · intro p hp q hq
      rcases List.mem_append.mp hq with hq1 | hq1
      · exact hacc p (by simp [hp]) q hq1
      · have : q = (hd.1, hd.2) := by simpa using hq1
        rw [this]
        exact hl.1 p hp
    · exact hl.2

lemma floor_half_add_int (k : Int) : (⌊(1 / 2 : ℚ) + (k : ℚ)⌋ : Int) = k := by
  rw [Int.floor_add_int]
  norm_num

lemma rnd_int_mul_one (k : Int) : rnd ((k : ℚ) * 1) = k := by
  have h1 : ((k : ℚ) * 1 + 1 / 2) = (1 / 2 : ℚ) + (k : ℚ) := by ring
  rw [rnd, h1, floor_half_add_int]

lemma ScalePoints_one (td : KeyframeBBox) (h : SortedKeys td.boxes) :
    (td.ScalePoints 1).boxes = td.boxes := by
  show td.boxes.foldl
      (fun acc p => insertBoxes acc (rnd ((p.1 : ℚ) * 1)) p.2) [] = td.boxes
  have hfe : td.boxes.foldl
        (fun acc p => insertBoxes acc (rnd ((p.1 : ℚ) * 1)) p.2) []
      = td.boxes.foldl (fun acc p => insertBoxes acc p.1 p.2) [] := by
    apply List.foldl_ext
    intro a p _
    rw [rnd_int_mul_one]
  rw [hfe]
  simpa using foldl_insert_sorted td.boxes [] (by simp) h

/-- C2 counterexample: a configuration update containing none of the
recognized keys does NOT leave the store's keys as they were once the current
`TimeScale` differs from 1: with `TimeScale = 2` and a sample at key 3, the
unconditional `ScalePoints` of `Tracker::SetJsonValue` moves the sample to
key 6. -/
def stC2x : Tracker :=
  { trackedData := ⟨[(3, ⟨1/4, 1/4, 1/8, 1/8⟩)], 30, 1⟩
    BaseFPS := ⟨30, 1⟩
    TimeScale := 2
    protobuf_data_path := "track.data"
    delta_x := ⟨[]⟩
    delta_y := ⟨[]⟩
    scale_x := ⟨[]⟩
    scale_y := ⟨[]⟩
    rotation := ⟨[]⟩ }

theorem C2_absent_keys_cex :
    (SetJsonValue fsFail emptyRoot stC2x).trackedData.boxes.map Prod.fst = [6]
    ∧ stC2x.trackedData.boxes.map Prod.fst = [3]
    ∧ (6 : Int) ≠ 3 := by
  refine ⟨?_, rfl, by norm_num⟩
  show (((stC2x.trackedData.SetBaseFPS 30 1).ScalePoints 2).boxes).map Prod.fst = [6]
  have h6 : rnd ((3 : ℚ) * 2) = 6 := by
    rw [rnd, show ((3 : ℚ) * 2 + 1 / 2) = (1 / 2 : ℚ) + ((6 : Int) : ℚ) by norm_num]
    exact floor_half_add_int 6
  simp [KeyframeBBox.ScalePoints, KeyframeBBox.SetBaseFPS, stC2x, h6, insertBoxes]

/-- C2 amended: for EVERY configuration update, each recognized key that is
absent from the document leaves its corresponding configured value (base
rate, time scale, path, each of the five curves) unchanged, unconditionally;
and an update containing none of the recognized keys leaves the store's keys
unchanged provided the current time scale is 1 — with any other current time
scale, every update rescales the store's keys by that factor again. -/
theorem C2_absent_keys (fs : String → Option (List PBFrame)) (root : ConfigRoot)
    (st : Tracker) :
    (root.baseFPS = none → (SetJsonValue fs root st).BaseFPS = st.BaseFPS)
    ∧ (root.timeScale = none → (SetJsonValue fs root st).TimeScale = st.TimeScale)
    ∧ (root.protobuf_data_path = none →
        (SetJsonValue fs root st).protobuf_data_path = st.protobuf_data_path)
    ∧ (root.delta_x = none → (SetJsonValue fs root st).delta_x = st.delta_x)
    ∧ (root.delta_y = none → (SetJsonValue fs root st).delta_y = st.delta_y)
    ∧ (root.scale_x = none → (SetJsonValue fs root st).scale_x = st.scale_x)
    ∧ (root.scale_y = none → (SetJsonValue fs root st).scale_y = st.scale_y)
    ∧ (root.rotation = none → (SetJsonValue fs root st).rotation = st.rotation)
    ∧ (root.baseFPS = none → root.timeScale = none →
        root.protobuf_data_path = none → root.delta_x = none →
        root.delta_y = none → root.scale_x = none → root.scale_y = none →
        root.rotation = none → st.TimeScale = 1 →
        SortedKeys st.trackedData.boxes →
        (SetJsonValue fs root st).trackedData.boxes = st.trackedData.boxes) := by
  refine ⟨?_, ?_, ?_, ?_, ?_, ?_, ?_, ?_, ?_⟩
  · intro h
    simp only [SetJsonValue, h]
  · intro h
    simp only [SetJsonValue, h, Option.getD_none]
  · intro h
    simp only [SetJsonValue, h]
  · intro h
    simp only [SetJsonValue, h]
  · intro h
    simp only [SetJsonValue, h]
  · intro h
    simp only [SetJsonValue, h]
  · intro h
    simp only [SetJsonValue, h]
  · intro h
    simp only [SetJsonValue, h]
  · intro _ h2 h3 _ _ _ _ _ hts hsort
    simp only [SetJsonValue, h2, h3, Option.getD_none]
    rw [hts]
    exact ScalePoints_one _ hsort

/-- An effect state with time scale 1 and one sample at key 3. -/
def stC2w : Tracker :=
  { trackedData := ⟨[(3, ⟨1/4, 1/4, 1/8, 1/8⟩)], 30, 1⟩
    BaseFPS := ⟨30, 1⟩
    TimeScale := 1
    protobuf_data_path := "track.data"
    delta_x := ⟨[]⟩
    delta_y := ⟨[]⟩
    scale_x := ⟨[]⟩
    scale_y := ⟨[]⟩
    rotation := ⟨[]⟩ }

theorem C2_absent_keys_witness :
    (SetJsonValue fsFail emptyRoot stC2w).BaseFPS = stC2w.BaseFPS
    ∧ (SetJsonValue fsFail emptyRoot stC2w).TimeScale = stC2w.TimeScale
    ∧ (SetJsonValue fsFail emptyRoot stC2w).protobuf_data_path = stC2w.protobuf_data_path
    ∧ (SetJsonValue fsFail emptyRoot stC2w).delta_x = stC2w.delta_x
    ∧ (SetJsonValue fsFail emptyRoot stC2w).delta_y = stC2w.delta_y
    ∧ (SetJsonValue fsFail emptyRoot stC2w).scale_x = stC2w.scale_x
    ∧ (SetJsonValue fsFail emptyRoot stC2w).scale_y = stC2w.scale_y
    ∧ (SetJsonValue fsFail emptyRoot stC2w).rotation = stC2w.rotation
    ∧ (SetJsonValue fsFail emptyRoot stC2w).trackedData.boxes = stC2w.trackedData.boxes :=
  ⟨(C2_absent_keys fsFail emptyRoot stC2w).1 rfl,
   (C2_absent_keys fsFail emptyRoot stC2w).2.1 rfl,
   (C2_absent_keys fsFail emptyRoot stC2w).2.2.1 rfl,
   (C2_absent_keys fsFail emptyRoot stC2w).2.2.2.1 rfl,
   (C2_absent_keys fsFail emptyRoot stC2w).2.2.2.2.1 rfl,
   (C2_absent_keys fsFail emptyRoot stC2w).2.2.2.2.2.1 rfl,
   (C2_absent_keys fsFail emptyRoot stC2w).2.2.2.2.2.2.1 rfl,
   (C2_absent_keys fsFail emptyRoot stC2w).2.2.2.2.2.2.2.1 rfl,
   (C2_absent_keys fsFail emptyRoot stC2w).2.2.2.2.2.2.2.2 rfl rfl rfl rfl rfl
     rfl rfl rfl rfl (by simp [stC2w, SortedKeys])⟩

/-- C1: the failing input.  Prior store has one sample at key 3, time scale
is being set to 2 and a new track path is supplied whose file parses to one
record at frame 4. -/
def stC1 : Tracker :=
  { trackedData := ⟨[(3, ⟨1/4, 1/4, 1/8, 1/8⟩)], 30, 1⟩
    BaseFPS := ⟨30, 1⟩
    TimeScale := 1
    protobuf_data_path := "old.data"
    delta_x := ⟨[]⟩
    delta_y := ⟨[]⟩
    scale_x := ⟨[]⟩
    scale_y := ⟨[]⟩
    rotation := ⟨[]⟩ }

/-- A parse environment where only `"new.data"` parses, to one record at
frame 4 with box corners `(0,0)`-`(1,1)`. -/
def fsC1 : String → Option (List PBFrame) :=
  fun p => if p = "new.data" then some [⟨4, 0, 0, 0, 1, 1⟩] else none

/-- A configuration update supplying both a time scale and a new track path. -/
def rootC1 : ConfigRoot :=
  { baseFPS := none, timeScale := some 2, protobuf_data_path := some "new.data",
    delta_x := none, delta_y := none, scale_x := none, scale_y := none,
    rotation := none }

/-- C1: the code applies `SetBaseFPS`/`ScalePoints` BEFORE the bulk load from
the new path, so the freshly loaded frame index 4 is left unrescaled (it
stays 4), although rescaling it by the newly set time scale 2 — what the
claim states — would have produced key 8. -/
theorem C1_rescale_precedes_load :
    ((SetJsonValue fsC1 rootC1 stC1).trackedData.boxes.map Prod.fst = [4])
    ∧ (SetJsonValue fsC1 rootC1 stC1).TimeScale = 2
    ∧ rnd ((4 : ℚ) * 2) = 8
    ∧ (4 : Int) ≠ 8 := by
  refine ⟨rfl, rfl, ?_, by norm_num⟩
  rw [rnd, show ((4 : ℚ) * 2 + 1 / 2) = (1 / 2 : ℚ) + ((8 : Int) : ℚ) by norm_num]
  exact floor_half_add_int 8

end TrackerSpec
